import Mathlib

/-!
Shallow embedding of the WATcher client components under verification:
`CardViewComponent` (src/app/issues-viewer/card-view/card-view.component.ts)
and `HeaderComponent` (src/app/shared/layout/header.component.ts).

The components' methods are embedded as pure functions.  Calls into external
collaborators (issue service, github service, error-handling service, logging
service, dialog service, github-event service, router) are recorded as events
in a trace, and the asynchronous resolution of each remote request is a
parameter of the function (success with a payload, or an error), so that the
subscribe handlers and the `finalize` teardown of the reactive pipeline are
evaluated explicitly for every possible outcome.
-/

/-- Issue status values used by the card view (`STATUS.Done`,
`STATUS.Incomplete` from the issue model). -/
inductive STATUS where
  | Done
  | Incomplete
  deriving DecidableEq, Repr

/-- Application phases referenced by the header component. -/
inductive Phase where
  | issuesViewer
  | activityDashboard
  | phaseBugReporting
  deriving DecidableEq, Repr

/-- An issue record: identifier, status, the phase stamp, and the remaining
mutable display fields. -/
structure Issue where
  id : Nat
  status : STATUS
  phase : Phase
  title : String
  description : String
  deriving DecidableEq, Repr

/-- Modelled from the spec: `issue.clone(currentPhase)` (the `Issue` model
class is not under src/) constructs a new record that is a copy of the
current one with the current phase stamped; every other field is preserved. -/
def Issue.clone (issue : Issue) (currentPhase : Phase) : Issue :=
  { issue with phase := currentPhase }

/-- Defunctionalised retry callback handed to
`errorHandlingService.handleError`: either no callback (the two-argument
overload is not used) or the header's `() => this.githubEventService.reloadPage()`. -/
inductive RetryAction where
  | noRetry
  | retryReloadPage
  deriving DecidableEq, Repr

/-- Observable calls into the external collaborators, recorded in order. -/
inductive Event where
  | logInfo (msg : String)
  | pendingAdd (id : Nat)
  | pendingRemove (id : Nat)
  | serviceDeleteIssue (id : Nat)
  | serviceUpdateIssue (issue : Issue)
  | storeUpsert (issue : Issue)
  | handleError (e : Nat) (retry : RetryAction)
  | stopPropagation
  | githubReset
  | issueServiceReset (clearFilters : Bool)
  | storePhaseDetails (owner repoName : String)
  | reloadPage
  | navigate (p : Phase)
  | authLogOut
  deriving DecidableEq, Repr

/-- Running a retry callback produces the trace of the collaborator calls the
callback makes: the header's retry callback re-invokes
`githubEventService.reloadPage()` exactly once. -/
def runRetry : RetryAction → List Event
  | RetryAction.noRetry => []
  | RetryAction.retryReloadPage => [Event.reloadPage]

/-! ## Card view: pending-deletion set and local store -/

/-- Resolution of the remote delete request issued through
`issueService.deleteIssue(id)`. -/
inductive DeleteOutcome where
  | success
  | error (e : Nat)
  deriving DecidableEq, Repr

/-- `this.issuesPendingDeletion = { ...this.issuesPendingDeletion, [id]: true }`:
the synchronous marking of `id` as pending, before the request is issued. -/
def deleteIssuePendingMark (id : Nat) (pending : Finset Nat) : Finset Nat :=
  insert id pending

/-- The `finalize` teardown
`const \x7b [id]: issueRemoved, ...theRest \x7d = this.issuesPendingDeletion`:
removes the key `id`, keeping the rest. -/
def deleteIssueFinalize (id : Nat) (pending : Finset Nat) : Finset Nat :=
  pending.erase id

/-- Modelled from the spec: the effect of `issueService.deleteIssue(id)` (the
issue service is not under src/) on the Local Store — on success the record is
removed from the Local Store; on error the Local Store is untouched.  The
component itself performs no Local Store operation in `deleteIssue`. -/
def serviceDeleteStoreEffect (id : Nat) (store : List Issue)
    (outcome : DeleteOutcome) : List Issue :=
  match outcome with
  | DeleteOutcome.success => store.filter (fun r => r.id ≠ id)
  | DeleteOutcome.error _ => store

/-- `CardViewComponent.deleteIssue(id, event)`, evaluated through the
resolution of the remote request: logs, synchronously marks `id` pending,
issues the delete request (whose `finalize` teardown removes `id` from the
pending set on either resolution, after the error handler), and stops the
event's propagation.  Returns the pending set and Local Store after the
resolution together with the trace. -/
def deleteIssue (id : Nat) (pending : Finset Nat) (store : List Issue)
    (outcome : DeleteOutcome) : Finset Nat × List Issue × List Event :=
  let pendingInFlight := deleteIssuePendingMark id pending
  let syncTrace : List Event :=
    [Event.logInfo ("IssueTablesComponent: Deleting Issue " ++ toString id),
     Event.pendingAdd id,
     Event.serviceDeleteIssue id,
     Event.stopPropagation]
  let resolutionTrace : List Event :=
    match outcome with
    | DeleteOutcome.success => [Event.pendingRemove id]
    | DeleteOutcome.error e =>
        [Event.handleError e RetryAction.noRetry, Event.pendingRemove id]
  (deleteIssueFinalize id pendingInFlight,
   serviceDeleteStoreEffect id store outcome,
   syncTrace ++ resolutionTrace)

/-! ## Card view: status updates -/

/-- Resolution of the remote update request issued through
`issueService.updateIssue(newIssue)`: on success the gateway returns the
canonical server copy. -/
inductive UpdateOutcome where
  | success (canonical : Issue)
  | error (e : Nat)
  deriving DecidableEq, Repr

/-- Modelled from the spec: `issueService.updateLocalStore(updatedIssue)` (the
issue service is not under src/) upserts the record into the Local Store,
overwriting any existing record with the same identifier entirely. -/
def updateLocalStore (store : List Issue) (r : Issue) : List Issue :=
  r :: store.filter (fun x => x.id ≠ r.id)

/-- `CardViewComponent.markAsResponded(issue, event)`: clones the issue with
the current phase, sets the status to `Done`, sends it to the gateway; on
success writes the returned canonical record to the Local Store, on error
surfaces the error and leaves the store untouched. -/
def markAsResponded (issue : Issue) (currentPhase : Phase) (store : List Issue)
    (outcome : UpdateOutcome) : List Issue × List Event :=
  let newIssue := { issue.clone currentPhase with status := STATUS.Done }
  let syncTrace : List Event :=
    [Event.logInfo ("IssueTablesComponent: Marking Issue " ++ toString issue.id
        ++ " as Responded"),
     Event.serviceUpdateIssue newIssue,
     Event.stopPropagation]
  match outcome with
  | UpdateOutcome.success updatedIssue =>
      (updateLocalStore store updatedIssue,
       syncTrace ++ [Event.storeUpsert updatedIssue])
  | UpdateOutcome.error e =>
      (store, syncTrace ++ [Event.handleError e RetryAction.noRetry])

/-- `CardViewComponent.markAsPending(issue, event)`: same shape as
`markAsResponded`, with status `Incomplete`. -/
def markAsPending (issue : Issue) (currentPhase : Phase) (store : List Issue)
    (outcome : UpdateOutcome) : List Issue × List Event :=
  let newIssue := { issue.clone currentPhase with status := STATUS.Incomplete }
  let syncTrace : List Event :=
    [Event.logInfo ("IssueTablesComponent: Marking Issue " ++ toString issue.id
        ++ " as Pending"),
     Event.serviceUpdateIssue newIssue,
     Event.stopPropagation]
  match outcome with
  | UpdateOutcome.success updatedIssue =>
      (updateLocalStore store updatedIssue,
       syncTrace ++ [Event.storeUpsert updatedIssue])
  | UpdateOutcome.error e =>
      (store, syncTrace ++ [Event.handleError e RetryAction.noRetry])

/-! ## Card view: description truncation -/

/-- `ELLIPSES` constant of `fitDescriptionText`. -/
def ELLIPSES : List Char := ['.', '.', '.']

/-- `MAX_CHARACTER_LENGTH` constant of `fitDescriptionText`. -/
def MAX_CHARACTER_LENGTH : Nat := 72

/-- `CardViewComponent.fitDescriptionText(description)`:
`description.slice(0, MAX_CHARACTER_LENGTH) + ELLIPSES`, on the character
sequence of the description. -/
def fitDescriptionText (description : List Char) : List Char :=
  description.take MAX_CHARACTER_LENGTH ++ ELLIPSES

/-! ## Header component: reload controller -/

/-- The header component's own mutable state relevant to the reload
controller. -/
structure HeaderState where
  isReloadButtonDisabled : Bool
  deriving DecidableEq, Repr

/-- Resolution of the full-refresh request issued through
`githubEventService.reloadPage()`. -/
inductive ReloadOutcome where
  | success
  | error (e : Nat)
  deriving DecidableEq, Repr

/-- The synchronous body of `HeaderComponent.reload()`: sets
`isReloadButtonDisabled = true`, issues the full-refresh request, and
schedules the 3000 ms cool-down timeout. -/
def reloadSync (s : HeaderState) : HeaderState × List Event :=
  ({ s with isReloadButtonDisabled := true }, [Event.reloadPage])

/-- The subscribe handlers of `reload()`: on success nothing, on error
`handleError(error, () => this.githubEventService.reloadPage())`. -/
def reloadResolution (outcome : ReloadOutcome) : List Event :=
  match outcome with
  | ReloadOutcome.success => []
  | ReloadOutcome.error e => [Event.handleError e RetryAction.retryReloadPage]

/-- The `setTimeout` callback scheduled by `reload()`: after the fixed
`RELOAD_COOLDOWN_MS` delay, re-enables the reload button.  It was scheduled
synchronously in `reload()`, so it fires regardless of the request's
outcome. -/
def reloadTimeout (s : HeaderState) : HeaderState :=
  { s with isReloadButtonDisabled := false }

/-- The fixed cool-down delay of `reload()` in milliseconds. -/
def RELOAD_COOLDOWN_MS : Nat := 3000

/-- `HeaderComponent.reload()`, evaluated through the resolution of the
full-refresh request (the cool-down timeout has not fired yet). -/
def reload (s : HeaderState) (outcome : ReloadOutcome) :
    HeaderState × List Event :=
  let (s1, t1) := reloadSync s
  (s1, t1 ++ reloadResolution outcome)

/-- Modelled from the spec: the reload trigger is the header's reload button,
whose template binding (the component's HTML template is not under src/)
disables it while `isReloadButtonDisabled` is true, so that pressing the
trigger invokes `reload()` only when the button is enabled and is a no-op
otherwise. -/
def pressReloadButton (s : HeaderState) (outcome : ReloadOutcome) :
    HeaderState × List Event :=
  if s.isReloadButtonDisabled then (s, []) else reload s outcome

/-! ## Header component: phase switching -/

/-- `HeaderComponent.routeToSelectedPhase(openPhase)`: does nothing if the
selected phase is the current phase; otherwise replaces the current phase
data, stores the phase details, resets the github service, resets the issue
service, reloads, and routes to the new phase.  The trace interleaves the
synchronous part of `reload()` at its call site and appends the asynchronous
resolution at the end.  Returns the new current phase, the header state and
the trace. -/
def routeToSelectedPhase (openPhase : Phase) (currentPhase : Phase)
    (s : HeaderState) (owner repoName : String) (outcome : ReloadOutcome) :
    Phase × HeaderState × List Event :=
  if currentPhase = openPhase then (currentPhase, s, [])
  else
    let (s1, reloadRequestTrace) := reloadSync s
    (openPhase, s1,
     [Event.storePhaseDetails owner repoName,
      Event.githubReset,
      Event.issueServiceReset false]
     ++ reloadRequestTrace
     ++ [Event.navigate openPhase]
     ++ reloadResolution outcome)

/-! ## Confirmation dialogs -/

/-- The result delivered by `dialogRef.afterClosed()`: `some b` when the
dialog resolved to the boolean `b`, `none` when it was dismissed without a
result. -/
def DialogResult : Type := Option Bool

/-- The `afterClosed` subscriber of `CardViewComponent.openDeleteDialog(id,
event)`: `if (res)` — only on a truthy result does it log and call
`deleteIssue(id, event)`. -/
def openDeleteDialogOnClose (id : Nat) (pending : Finset Nat)
    (store : List Issue) (res : Option Bool) (outcome : DeleteOutcome) :
    Finset Nat × List Issue × List Event :=
  match res with
  | some true =>
      let r := deleteIssue id pending store outcome
      (r.1, r.2.1, Event.logInfo ("Deleting issue " ++ toString id) :: r.2.2)
  | _ => (pending, store, [])

/-- `HeaderComponent.logOut()`: delegates to the auth service. -/
def logOut : List Event :=
  [Event.authLogOut]

/-- The `afterClosed` subscriber of `HeaderComponent.openLogOutDialog()`:
`if (res)` — only on a truthy result does it log and call `logOut()`. -/
def openLogOutDialogOnClose (loginId : String) (res : Option Bool) :
    List Event :=
  match res with
  | some true => Event.logInfo ("Logging out from " ++ loginId) :: logOut
  | _ => []

/-! ## Theorems -/

/-- C1: for every invocation of `deleteIssue(id)`, once the delete
operation's resolution (success or error) has been observed, `id` is absent
from the pending-deletion set `issuesPendingDeletion`, and the removal
(the `finalize` teardown) happens exactly once on every exit path of the
operation. -/
theorem C1_pending_set_cleanup (id : Nat) (pending : Finset Nat)
    (store : List Issue) (outcome : DeleteOutcome) :
    id ∉ (deleteIssue id pending store outcome).1 ∧
    ((deleteIssue id pending store outcome).2.2).count (Event.pendingRemove id) = 1 := by
  cases outcome <;>
    simp [deleteIssue, deleteIssueFinalize, deleteIssuePendingMark, List.count_append,
      List.count_cons, List.count_nil]

/-- C2: for every invocation of `deleteIssue(id)`, `id` is added to the
pending-deletion set synchronously before the delete request is issued
(the `pendingAdd` precedes the `serviceDeleteIssue` request in the trace, and
`id` is in the in-flight pending set); and if the gateway responds with an
error, the record remains in the Local Store, the pending entry for `id` is
cleared, and the error is surfaced to the error-handling collaborator. -/
theorem C2_delete_error_path (id : Nat) (pending : Finset Nat)
    (store : List Issue) (e : Nat) (outcome : DeleteOutcome) :
    ((deleteIssue id pending store outcome).2.2).get? 1 = some (Event.pendingAdd id) ∧
    ((deleteIssue id pending store outcome).2.2).get? 2 = some (Event.serviceDeleteIssue id) ∧
    id ∈ deleteIssuePendingMark id pending ∧
    (deleteIssue id pending store (DeleteOutcome.error e)).2.1 = store ∧
    id ∉ (deleteIssue id pending store (DeleteOutcome.error e)).1 ∧
    Event.handleError e RetryAction.noRetry ∈ (deleteIssue id pending store (DeleteOutcome.error e)).2.2 := by
  cases outcome <;>
    simp [deleteIssue, deleteIssueFinalize, deleteIssuePendingMark, serviceDeleteStoreEffect]

/-- C8: for any two distinct identifiers `a` and `b`, marking `a` as pending
in `deleteIssue(a)` and clearing `a` at its resolution leave the
pending-deletion entry for `b` unchanged. -/
theorem C8_delete_frame (a b : Nat) (pending : Finset Nat) (store : List Issue)
    (outcome : DeleteOutcome) (h : b ≠ a) :
    (b ∈ deleteIssuePendingMark a pending ↔ b ∈ pending) ∧
    (b ∈ (deleteIssue a pending store outcome).1 ↔ b ∈ pending) := by
  cases outcome <;>
    simp [deleteIssue, deleteIssueFinalize, deleteIssuePendingMark, h]

/-- C8 witness: instantiation at `a = 1`, `b = 2`, pending set `{2}`. -/
theorem C8_delete_frame_witness :
    (2 : Nat) ≠ 1 ∧
    ((2 ∈ deleteIssuePendingMark 1 {2} ↔ 2 ∈ ({2} : Finset Nat)) ∧
     (2 ∈ (deleteIssue 1 {2} [] DeleteOutcome.success).1 ↔ 2 ∈ ({2} : Finset Nat))) :=
  ⟨by decide, C8_delete_frame 1 2 {2} [] DeleteOutcome.success (by decide)⟩

/-- A 75-character description whose last three characters are already
`...`: the truncation is the identity on it. -/
def descr75 : List Char := List.replicate 72 'a' ++ ['.', '.', '.']

/-- C10 counterexample: `fitDescriptionText` maps the non-empty 75-character
input `descr75` (72 characters followed by `...`) to itself, refuting "the
output is never equal to a non-empty input". -/
theorem C10_counterexample : fitDescriptionText descr75 = descr75 ∧ descr75 ≠ [] := by
  constructor
  · rfl
  · decide

/-- C10 (amended): `fitDescriptionText(s)` returns the first 72 characters of
`s` with `...` appended unconditionally; an input of 72 or fewer characters —
including the empty string — still gains a trailing `...`; and the output
equals the input exactly when the input has 75 characters and already ends
with `...`. -/
theorem C10_truncation_amended (s : List Char) :
    fitDescriptionText s = s.take 72 ++ ['.', '.', '.'] ∧
    (s.length ≤ 72 → fitDescriptionText s = s ++ ['.', '.', '.']) ∧
    (fitDescriptionText s = s ↔ s.length = 75 ∧ s.drop 72 = ['.', '.', '.']) := by
  refine ⟨rfl, ?_, ?_, ?_⟩
  · intro h
    show s.take 72 ++ ['.', '.', '.'] = s ++ ['.', '.', '.']
    rw [List.take_of_length_le h]
  · intro h
    replace h : s.take 72 ++ ['.', '.', '.'] = s := h
    have hlen := congrArg List.length h
    simp [List.length_take] at hlen
    have h75 : s.length = 75 := by omega
    refine ⟨h75, ?_⟩
    have htake : (s.take 72).length = 72 := by
      rw [List.length_take]; omega
    conv_lhs => rw [← h]
    exact List.drop_left' htake
  · rintro ⟨h75, hdrop⟩
    show s.take 72 ++ ['.', '.', '.'] = s
    rw [← hdrop, List.take_append_drop]

/-- C10 witness: the amended theorem applied at the two-character input
`hi`, whose truncation appends the ellipsis. -/
theorem C10_truncation_amended_witness :
    fitDescriptionText ['h', 'i'] = ['h', 'i'] ++ ['.', '.', '.'] :=
  (C10_truncation_amended ['h', 'i']).2.1 (by decide)

/-- C3: `markAsResponded` and `markAsPending` send to the gateway a clone of
the current record with the status changed (`Done` / `Incomplete`) and the
current phase stamped, write to the Local Store only the canonical record
returned on success, and on gateway failure leave the Local Store untouched
(no speculative write occurs: no `storeUpsert` appears in the error trace)
and surface the error. -/
theorem C3_status_update_reconciliation (issue : Issue) (currentPhase : Phase)
    (store : List Issue) (canonical : Issue) (e : Nat) (outcome : UpdateOutcome) :
    ((markAsResponded issue currentPhase store outcome).2).get? 1 =
      some (Event.serviceUpdateIssue { issue with status := STATUS.Done, phase := currentPhase }) ∧
    ((markAsPending issue currentPhase store outcome).2).get? 1 =
      some (Event.serviceUpdateIssue { issue with status := STATUS.Incomplete, phase := currentPhase }) ∧
    (markAsResponded issue currentPhase store (UpdateOutcome.success canonical)).1 =
      updateLocalStore store canonical ∧
    (markAsPending issue currentPhase store (UpdateOutcome.success canonical)).1 =
      updateLocalStore store canonical ∧
    ((markAsResponded issue currentPhase store (UpdateOutcome.success canonical)).2).get? 3 =
      some (Event.storeUpsert canonical) ∧
    ((markAsPending issue currentPhase store (UpdateOutcome.success canonical)).2).get? 3 =
      some (Event.storeUpsert canonical) ∧
    (markAsResponded issue currentPhase store (UpdateOutcome.error e)).1 = store ∧
    (markAsPending issue currentPhase store (UpdateOutcome.error e)).1 = store ∧
    (∀ r, Event.storeUpsert r ∉ (markAsResponded issue currentPhase store (UpdateOutcome.error e)).2) ∧
    (∀ r, Event.storeUpsert r ∉ (markAsPending issue currentPhase store (UpdateOutcome.error e)).2) ∧
    Event.handleError e RetryAction.noRetry ∈ (markAsResponded issue currentPhase store (UpdateOutcome.error e)).2 ∧
    Event.handleError e RetryAction.noRetry ∈ (markAsPending issue currentPhase store (UpdateOutcome.error e)).2 := by
  cases outcome <;> simp [markAsResponded, markAsPending, Issue.clone]

/-- C4: pressing the reload trigger while a previous reload is in the
`Reloading` or `CoolDown` state (the button is disabled) has no additional
effect — no second in-flight full-refresh request is started — until the
cool-down has elapsed and the trigger is re-enabled, after which a press
proceeds normally. -/
theorem C4_reload_trigger_safety (s : HeaderState) (o o' o'' : ReloadOutcome)
    (h : s.isReloadButtonDisabled = false) :
    ((pressReloadButton s o).1).isReloadButtonDisabled = true ∧
    Event.reloadPage ∈ (pressReloadButton s o).2 ∧
    pressReloadButton (pressReloadButton s o).1 o' = ((pressReloadButton s o).1, []) ∧
    Event.reloadPage ∈ (pressReloadButton (reloadTimeout (pressReloadButton s o).1) o'').2 ∧
    (∀ t : HeaderState, t.isReloadButtonDisabled = true →
      ∀ o₃, pressReloadButton t o₃ = (t, [])) := by
  cases o <;> cases o'' <;>
    simp [pressReloadButton, reload, reloadSync, reloadResolution, reloadTimeout, h] <;>
    (intro t ht o₃; simp [pressReloadButton, ht])

/-- C4 witness: a full press cycle starting from the enabled state. -/
theorem C4_reload_trigger_safety_witness :
    (HeaderState.mk false).isReloadButtonDisabled = false ∧
    (((pressReloadButton ⟨false⟩ ReloadOutcome.success).1).isReloadButtonDisabled = true ∧
     Event.reloadPage ∈ (pressReloadButton ⟨false⟩ ReloadOutcome.success).2 ∧
     pressReloadButton (pressReloadButton ⟨false⟩ ReloadOutcome.success).1 ReloadOutcome.success =
       ((pressReloadButton ⟨false⟩ ReloadOutcome.success).1, []) ∧
     Event.reloadPage ∈ (pressReloadButton
       (reloadTimeout (pressReloadButton ⟨false⟩ ReloadOutcome.success).1) ReloadOutcome.success).2 ∧
     (∀ t : HeaderState, t.isReloadButtonDisabled = true →
       ∀ o₃, pressReloadButton t o₃ = (t, []))) :=
  ⟨rfl, C4_reload_trigger_safety ⟨false⟩ ReloadOutcome.success ReloadOutcome.success
    ReloadOutcome.success rfl⟩

/-- C5: when the user switches to a different phase, `routeToSelectedPhase`
performs the github-service reset, then the issue-service reset, then the
reload request, in this order and each exactly once; when the selected phase
is the current phase, none of these steps happens (no prefix is applied
without the rest). -/
theorem C5_phase_switch_order (openPhase currentPhase : Phase) (s : HeaderState)
    (owner repoName : String) (outcome : ReloadOutcome)
    (h : currentPhase ≠ openPhase) :
    ((routeToSelectedPhase openPhase currentPhase s owner repoName outcome).2.2).get? 1 =
      some Event.githubReset ∧
    ((routeToSelectedPhase openPhase currentPhase s owner repoName outcome).2.2).get? 2 =
      some (Event.issueServiceReset false) ∧
    ((routeToSelectedPhase openPhase currentPhase s owner repoName outcome).2.2).get? 3 =
      some Event.reloadPage ∧
    ((routeToSelectedPhase openPhase currentPhase s owner repoName outcome).2.2).count
      Event.githubReset = 1 ∧
    ((routeToSelectedPhase openPhase currentPhase s owner repoName outcome).2.2).count
      (Event.issueServiceReset false) = 1 ∧
    ((routeToSelectedPhase openPhase currentPhase s owner repoName outcome).2.2).count
      Event.reloadPage = 1 ∧
    (∀ p hs ow rn oc,
      routeToSelectedPhase p p hs ow rn oc = (p, hs, ([] : List Event))) := by
  cases outcome <;>
    simp [routeToSelectedPhase, reloadSync, reloadResolution, h,
      List.count_append, List.count_cons]

/-- C5 witness: switching from `issuesViewer` to `activityDashboard`. -/
theorem C5_phase_switch_order_witness :
    Phase.issuesViewer ≠ Phase.activityDashboard ∧
    (((routeToSelectedPhase Phase.activityDashboard Phase.issuesViewer ⟨false⟩ "o" "r"
        ReloadOutcome.success).2.2).get? 1 = some Event.githubReset ∧
     ((routeToSelectedPhase Phase.activityDashboard Phase.issuesViewer ⟨false⟩ "o" "r"
        ReloadOutcome.success).2.2).get? 2 = some (Event.issueServiceReset false) ∧
     ((routeToSelectedPhase Phase.activityDashboard Phase.issuesViewer ⟨false⟩ "o" "r"
        ReloadOutcome.success).2.2).get? 3 = some Event.reloadPage ∧
     ((routeToSelectedPhase Phase.activityDashboard Phase.issuesViewer ⟨false⟩ "o" "r"
        ReloadOutcome.success).2.2).count Event.githubReset = 1 ∧
     ((routeToSelectedPhase Phase.activityDashboard Phase.issuesViewer ⟨false⟩ "o" "r"
        ReloadOutcome.success).2.2).count (Event.issueServiceReset false) = 1 ∧
     ((routeToSelectedPhase Phase.activityDashboard Phase.issuesViewer ⟨false⟩ "o" "r"
        ReloadOutcome.success).2.2).count Event.reloadPage = 1 ∧
     (∀ p hs ow rn oc,
       routeToSelectedPhase p p hs ow rn oc = (p, hs, ([] : List Event)))) :=
  ⟨by decide, C5_phase_switch_order Phase.activityDashboard Phase.issuesViewer ⟨false⟩ "o" "r"
    ReloadOutcome.success (by decide)⟩

/-- C6: after every `reload()` invocation the trigger is disabled, and the
cool-down timeout — scheduled unconditionally with the fixed 3000 ms delay —
re-enables it regardless of whether the refresh succeeded or failed, so the
trigger never remains permanently disabled. -/
theorem C6_cooldown_reenables (s : HeaderState) (outcome : ReloadOutcome) :
    ((reload s outcome).1).isReloadButtonDisabled = true ∧
    (reloadTimeout (reload s outcome).1).isReloadButtonDisabled = false ∧
    RELOAD_COOLDOWN_MS = 3000 := by
  cases outcome <;> simp [reload, reloadSync, reloadTimeout, RELOAD_COOLDOWN_MS]

/-- C7: when the full-refresh operation invoked by `reload()` fails, the
error is passed to the error-surface collaborator exactly once, together with
the retry callback whose invocation re-invokes the same refresh operation
exactly once; the failure is never silently dropped. -/
theorem C7_reload_failure_surfaced (s : HeaderState) (e : Nat) :
    Event.handleError e RetryAction.retryReloadPage ∈ (reload s (ReloadOutcome.error e)).2 ∧
    ((reload s (ReloadOutcome.error e)).2).count
      (Event.handleError e RetryAction.retryReloadPage) = 1 ∧
    runRetry RetryAction.retryReloadPage = [Event.reloadPage] := by
  simp [reload, reloadSync, reloadResolution, runRetry, List.count_append, List.count_cons]

/-- C9: the destructive actions are gated by the confirmation dialog: the
delete-dialog handler issues the delete request, and the logout-dialog
handler logs out, exactly when the dialog's result is `true`; on a `false`
result or a dismissed dialog neither performs any action. -/
theorem C9_dialog_confirmation_gating (id : Nat) (pending : Finset Nat)
    (store : List Issue) (res : Option Bool) (outcome : DeleteOutcome)
    (loginId : String) :
    (Event.serviceDeleteIssue id ∈ (openDeleteDialogOnClose id pending store res outcome).2.2 ↔
      res = some true) ∧
    (Event.authLogOut ∈ openLogOutDialogOnClose loginId res ↔ res = some true) ∧
    (res ≠ some true →
      openDeleteDialogOnClose id pending store res outcome = (pending, store, []) ∧
      openLogOutDialogOnClose loginId res = []) := by
  rcases res with _ | b
  · simp [openDeleteDialogOnClose, openLogOutDialogOnClose, logOut]
  · cases b <;> cases outcome <;>
      simp [openDeleteDialogOnClose, openLogOutDialogOnClose, logOut, deleteIssue]

/-- C9 witness: a dismissed delete dialog performs no action, and a confirmed
logout dialog logs out. -/
theorem C9_dialog_confirmation_gating_witness :
    ((Event.serviceDeleteIssue 1 ∈
        (openDeleteDialogOnClose 1 ∅ [] none DeleteOutcome.success).2.2 ↔
      (none : Option Bool) = some true) ∧
     (Event.authLogOut ∈ openLogOutDialogOnClose "u" none ↔
      (none : Option Bool) = some true) ∧
     ((none : Option Bool) ≠ some true →
       openDeleteDialogOnClose 1 ∅ [] none DeleteOutcome.success = (∅, [], []) ∧
       openLogOutDialogOnClose "u" none = [])) :=
  C9_dialog_confirmation_gating 1 ∅ [] none DeleteOutcome.success "u"
